import Mathlib

/-
Verification of the M2MObjectHelper class (m2m_object_helper.h / m2m_object_helper.cpp).

The helper builds an LWM2M object from a static definition table and marshals typed
values into the external mbed-client object model.  The embedding below reproduces
the helper's own logic faithfully; the external library (M2MInterfaceFactory,
M2MObject, M2MObjectInstance, M2MResource, M2MResourceInstance), which is not part
of this repository, is modelled as an explicit store:

  * objects hold object instances keyed by instance id;
  * object instances hold resources keyed by name;
  * a resource holds either one value or a map of resource-instance index to value;
  * factory/creation calls succeed or fail according to an `Env` of outcomes;
  * set_value always stores (allocation failure in the library is out of scope);
  * the C library's snprintf/sscanf used by the FLOAT paths are uninterpreted
    function parameters (`snp`, `ssc`); C `float` itself is an opaque bit pattern.

One deliberate deviation from "clean" modelling: in makeObject (cpp lines 49-137)
the local `M2MObjectInstance *objectInstance` is declared without an initialiser
(line 52) and is read at the final `return (objectInstance != NULL) && ...`
(line 136) on paths that never assign it (`_defObject == NULL`, or `_object` still
NULL after the factory call).  The truth value of that indeterminate read is made
explicit as the `junk` argument of `makeObject`.
-/

/-- Opaque stand-in for the C `float` type: a 32-bit pattern, uninterpreted.
    The conversions performed by snprintf/sscanf are taken as parameters where
    the FLOAT marshalling paths need them. -/
structure FloatVal where
  bits : Nat
deriving DecidableEq, Repr

/-- M2MResourceBase::ResourceType of the external client library. -/
inductive ResourceType where
  | STRING
  | INTEGER
  | FLOAT
  | BOOLEAN
  | OPAQUE
  | TIME
  | OBJLINK
deriving DecidableEq, Repr

/-- One row of the resource-definition table (DefResource in m2m_object_helper.h,
    lines 346-356).  `instanceId` is -1 when there is only a single instance. -/
structure DefResource where
  instanceId : Int
  name : String
  typeString : String
  type : ResourceType
  observable : Bool
  operation : Nat
  format : Option String
deriving DecidableEq, Repr

/-- The object-definition table (DefObject in m2m_object_helper.h, lines 360-365).
    `numResources` of the source is `resources.length`. -/
structure DefObject where
  instanceId : Int
  name : String
  resources : List DefResource
deriving DecidableEq, Repr

/-- A value held by the external object model: resources store either a 64-bit
    integer or a byte string (set_value(int64_t) / set_value(buffer, length)). -/
inductive MValue where
  | vInt (v : Int)
  | vStr (s : String)
deriving DecidableEq, Repr

/-- An M2MResource of the external model: its multiple-instance flag, the value
    stored when single-instance, and the resource instances when multi-instance. -/
structure MResource where
  multiInstance : Bool
  value : MValue
  instances : List (Int × MValue)
deriving DecidableEq, Repr

/-- An M2MObjectInstance of the external model: resources keyed by name. -/
structure MOInstance where
  resources : List (String × MResource)
deriving DecidableEq, Repr

/-- An M2MObject of the external model: object instances keyed by instance id. -/
structure MObject where
  name : String
  instances : List (Int × MOInstance)
deriving DecidableEq, Repr

/-- First-match association lookup (the external model's lookups by id/name). -/
def findA {α β : Type} [DecidableEq α] : List (α × β) → α → Option β
  | [], _ => none
  | (a, b) :: t, k => if k = a then some b else findA t k

/-- Replace the value at the first occurrence of a key; identity when absent. -/
def setA {α β : Type} [DecidableEq α] : List (α × β) → α → β → List (α × β)
  | [], _, _ => []
  | (a, b) :: t, k, v => if k = a then (a, v) :: t else (a, b) :: setA t k v

/-- Replace the value at a key, appending the binding when the key is absent. -/
def setOrAddA {α β : Type} [DecidableEq α] (l : List (α × β)) (k : α) (v : β) :
    List (α × β) :=
  match findA l k with
  | some _ => setA l k v
  | none => l ++ [(k, v)]

/-- get_value_int of the external model (integer resources; 0 otherwise). -/
def mGetValueInt : MValue → Int
  | .vInt v => v
  | .vStr _ => 0

/-- get_value_string of the external model (byte-string resources; empty otherwise). -/
def mGetValueString : MValue → String
  | .vStr s => s
  | .vInt _ => ""

/-- Value of a freshly created dynamic resource (empty in the external model). -/
def defaultMValue : MValue := .vStr ""

/-- The resolution chain shared by the private accessors (cpp lines 517-534 and
    618-634): `_object`, then `object_instance(_defObject->instance)`, then
    `resource(resourceNumber)`, then — when the resource supports multiple
    instances — `resource_instance(wantedInstance)`; finally read the stored
    value.  `none` when any step fails. -/
def readStored (d : DefObject) (obj : Option MObject) (resourceNumber : String)
    (wantedInstance : Int) : Option MValue :=
  match obj with
  | none => none
  | some o =>
    match findA o.instances d.instanceId with
    | none => none
    | some oi =>
      match findA oi.resources resourceNumber with
      | none => none
      | some res =>
        if res.multiInstance then findA res.instances wantedInstance
        else some res.value

/-- The same resolution chain, writing `v` into the resolved slot (the resource
    instance's value when multi-instance, the resource's value otherwise).
    `none` when resolution fails; nothing is written in that case. -/
def writeStored (d : DefObject) (obj : Option MObject) (resourceNumber : String)
    (wantedInstance : Int) (v : MValue) : Option MObject :=
  match obj with
  | none => none
  | some o =>
    match findA o.instances d.instanceId with
    | none => none
    | some oi =>
      match findA oi.resources resourceNumber with
      | none => none
      | some res =>
        if res.multiInstance then
          match findA res.instances wantedInstance with
          | none => none
          | some _ =>
            let res2 : MResource := { res with instances := setA res.instances wantedInstance v }
            let oi2 : MOInstance := { oi with resources := setA oi.resources resourceNumber res2 }
            some { o with instances := setA o.instances d.instanceId oi2 }
        else
          let res2 : MResource := { res with value := v }
          let oi2 : MOInstance := { oi with resources := setA oi.resources resourceNumber res2 }
          some { o with instances := setA o.instances d.instanceId oi2 }

/-- An application-typed value passed through the `void *` of the private
    accessors.  The projections below model reinterpreting the pointer; the
    non-matching arms are unreachable from the public overloads, which check the
    declared type before calling the private routine. -/
inductive AppValue where
  | int (v : Int)
  | flt (f : FloatVal)
  | boolean (b : Bool)
  | str (s : String)
deriving DecidableEq, Repr

def AppValue.asInt : AppValue → Int
  | .int v => v
  | _ => 0

def AppValue.asBool : AppValue → Bool
  | .boolean b => b
  | _ => false

def AppValue.asFloat : AppValue → FloatVal
  | .flt f => f
  | _ => ⟨0⟩

def AppValue.asStr : AppValue → String
  | .str s => s
  | _ => ""

/-- M2MObjectHelper::setResourceValue (private, cpp lines 502-602): resolve the
    target slot, then marshal by declared type.  STRING stores the raw bytes;
    INTEGER/TIME store the 64-bit value; BOOLEAN stores 0 or 1; FLOAT renders the
    value with snprintf (`snp`) using the supplied format, defaulting to "%f" when
    none was passed; OBJLINK and OPAQUE are unsupported and fail. -/
def setResourceValuePriv (snp : String → FloatVal → String) (d : DefObject)
    (obj : Option MObject) (value : AppValue) (type : ResourceType)
    (resourceNumber : String) (wantedInstance : Int) (format : Option String) :
    Option MObject × Bool :=
  match type with
  | .STRING =>
    match writeStored d obj resourceNumber wantedInstance (.vStr value.asStr) with
    | some o2 => (some o2, true)
    | none => (obj, false)
  | .INTEGER | .TIME =>
    match writeStored d obj resourceNumber wantedInstance (.vInt value.asInt) with
    | some o2 => (some o2, true)
    | none => (obj, false)
  | .BOOLEAN =>
    match writeStored d obj resourceNumber wantedInstance
        (.vInt (if value.asBool then 1 else 0)) with
    | some o2 => (some o2, true)
    | none => (obj, false)
  | .FLOAT =>
    match writeStored d obj resourceNumber wantedInstance
        (.vStr (snp (format.getD "%f") value.asFloat)) with
    | some o2 => (some o2, true)
    | none => (obj, false)
  | .OBJLINK | .OPAQUE => (obj, false)

/-- M2MObjectHelper::getResourceValue (private, cpp lines 605-702): resolve the
    slot, then unmarshal by declared type.  BOOLEAN coerces the stored integer to
    a truth value; FLOAT re-parses the stored text with sscanf (`ssc`); OBJLINK
    and OPAQUE are unsupported and fail. -/
def getResourceValuePriv (ssc : String → FloatVal) (d : DefObject)
    (obj : Option MObject) (type : ResourceType) (resourceNumber : String)
    (wantedInstance : Int) : Option AppValue :=
  match readStored d obj resourceNumber wantedInstance with
  | none => none
  | some stored =>
    match type with
    | .STRING => some (.str (mGetValueString stored))
    | .INTEGER | .TIME => some (.int (mGetValueInt stored))
    | .BOOLEAN => some (.boolean (if mGetValueInt stored = 0 then false else true))
    | .FLOAT => some (.flt (ssc (mGetValueString stored)))
    | .OBJLINK | .OPAQUE => none

/-- The definition-table scan shared by every public overload (e.g. cpp lines
    179-185): first entry whose name equals the requested identifier and whose
    declared instance equals the requested instance. -/
def lookupDef (d : DefObject) (resourceNumber : String) (wantedInstance : Int) :
    Option DefResource :=
  d.resources.find? (fun r => r.name == resourceNumber && r.instanceId == wantedInstance)

/-- setResourceValue(int64_t, ...) — cpp lines 170-197.  Requires the declared
    kind to be INTEGER or TIME; passes no format string. -/
def setResourceValueInt (snp : String → FloatVal → String) (d : DefObject)
    (obj : Option MObject) (value : Int) (resourceNumber : String)
    (wantedInstance : Int) : Option MObject × Bool :=
  match lookupDef d resourceNumber wantedInstance with
  | some r =>
    if r.type = .INTEGER ∨ r.type = .TIME then
      setResourceValuePriv snp d obj (.int value) r.type resourceNumber wantedInstance none
    else (obj, false)
  | none => (obj, false)

/-- setResourceValue(float, ...) — cpp lines 200-225.  Requires FLOAT; note the
    source fetches only `type` from the table and passes no format string, so the
    private routine falls back to "%f". -/
def setResourceValueFloat (snp : String → FloatVal → String) (d : DefObject)
    (obj : Option MObject) (value : FloatVal) (resourceNumber : String)
    (wantedInstance : Int) : Option MObject × Bool :=
  match lookupDef d resourceNumber wantedInstance with
  | some r =>
    if r.type = .FLOAT then
      setResourceValuePriv snp d obj (.flt value) r.type resourceNumber wantedInstance none
    else (obj, false)
  | none => (obj, false)

/-- setResourceValue(bool, ...) — cpp lines 228-254.  Requires BOOLEAN. -/
def setResourceValueBool (snp : String → FloatVal → String) (d : DefObject)
    (obj : Option MObject) (value : Bool) (resourceNumber : String)
    (wantedInstance : Int) : Option MObject × Bool :=
  match lookupDef d resourceNumber wantedInstance with
  | some r =>
    if r.type = .BOOLEAN then
      setResourceValuePriv snp d obj (.boolean value) r.type resourceNumber wantedInstance none
    else (obj, false)
  | none => (obj, false)

/-- setResourceValue(const char *, ...) — cpp lines 257-286.  Builds a String
    from the C string and requires STRING; passes the declared format string. -/
def setResourceValueCStr (snp : String → FloatVal → String) (d : DefObject)
    (obj : Option MObject) (value : String) (resourceNumber : String)
    (wantedInstance : Int) : Option MObject × Bool :=
  match lookupDef d resourceNumber wantedInstance with
  | some r =>
    if r.type = .STRING then
      setResourceValuePriv snp d obj (.str value) r.type resourceNumber wantedInstance r.format
    else (obj, false)
  | none => (obj, false)

/-- setResourceValue(String, ...) — cpp lines 289-317.  Requires STRING; passes
    the declared format string. -/
def setResourceValueStr (snp : String → FloatVal → String) (d : DefObject)
    (obj : Option MObject) (value : String) (resourceNumber : String)
    (wantedInstance : Int) : Option MObject × Bool :=
  match lookupDef d resourceNumber wantedInstance with
  | some r =>
    if r.type = .STRING then
      setResourceValuePriv snp d obj (.str value) r.type resourceNumber wantedInstance r.format
    else (obj, false)
  | none => (obj, false)

/-- getResourceValue(int64_t *, ...) — cpp lines 320-348.  `some v` means the
    call returned true having written `v` through the out pointer. -/
def getResourceValueInt (ssc : String → FloatVal) (d : DefObject)
    (obj : Option MObject) (resourceNumber : String) (wantedInstance : Int) :
    Option Int :=
  match lookupDef d resourceNumber wantedInstance with
  | some r =>
    if r.type = .INTEGER ∨ r.type = .TIME then
      (getResourceValuePriv ssc d obj r.type resourceNumber wantedInstance).map AppValue.asInt
    else none
  | none => none

/-- getResourceValue(float *, ...) — cpp lines 351-377. -/
def getResourceValueFloat (ssc : String → FloatVal) (d : DefObject)
    (obj : Option MObject) (resourceNumber : String) (wantedInstance : Int) :
    Option FloatVal :=
  match lookupDef d resourceNumber wantedInstance with
  | some r =>
    if r.type = .FLOAT then
      (getResourceValuePriv ssc d obj r.type resourceNumber wantedInstance).map AppValue.asFloat
    else none
  | none => none

/-- getResourceValue(bool *, ...) — cpp lines 380-406. -/
def getResourceValueBool (ssc : String → FloatVal) (d : DefObject)
    (obj : Option MObject) (resourceNumber : String) (wantedInstance : Int) :
    Option Bool :=
  match lookupDef d resourceNumber wantedInstance with
  | some r =>
    if r.type = .BOOLEAN then
      (getResourceValuePriv ssc d obj r.type resourceNumber wantedInstance).map AppValue.asBool
    else none
  | none => none

/-- getResourceValue(String *, ...) — cpp lines 447-473. -/
def getResourceValueStr (ssc : String → FloatVal) (d : DefObject)
    (obj : Option MObject) (resourceNumber : String) (wantedInstance : Int) :
    Option String :=
  match lookupDef d resourceNumber wantedInstance with
  | some r =>
    if r.type = .STRING then
      (getResourceValuePriv ssc d obj r.type resourceNumber wantedInstance).map AppValue.asStr
    else none
  | none => none

/-- getResourceValue(char *, unsigned int len, ...) — cpp lines 409-444.  Returns
    the success flag and the byte sequence written into the caller's buffer: when
    `len > 0` the stored string is resized to at most `len - 1` bytes, copied and
    terminated; when `len = 0` nothing at all is written (yet the call still
    reports the inner get's success). -/
def getResourceValueBuf (ssc : String → FloatVal) (d : DefObject)
    (obj : Option MObject) (len : Nat) (resourceNumber : String)
    (wantedInstance : Int) : Bool × List Char :=
  match lookupDef d resourceNumber wantedInstance with
  | some r =>
    if r.type = .STRING then
      match getResourceValuePriv ssc d obj r.type resourceNumber wantedInstance with
      | some v =>
        (true, if 0 < len then v.asStr.toList.take (len - 1) ++ [Char.ofNat 0] else [])
      | none => (false, [])
    else (false, [])
  | none => (false, [])

/-- M2MObjectHelper::setExecuteCallback — cpp lines 140-166.  Checks `_object`,
    then `object_instance(_defObject->instance)`, then `resource(resourceNumber)`
    — the definition table's resource list is never consulted.  `extOk` models
    the return of the external set_execute_function call. -/
def setExecuteCallback (d : DefObject) (obj : Option MObject)
    (resourceNumber : String) (extOk : Bool) : Bool :=
  match obj with
  | none => false
  | some o =>
    match findA o.instances d.instanceId with
    | none => false
    | some oi =>
      match findA oi.resources resourceNumber with
      | none => false
      | some _ => extOk

/-- Outcomes of the external factory calls, resolved deterministically per
    target so that a build can be replayed. -/
structure Env where
  createObjectOk : Bool
  createInstanceOk : Bool
  createResourceOk : String → Bool
  createResourceInstanceOk : String → Int → Bool

/-- create_dynamic_resource with the multiple-instance flag (cpp lines 76-80):
    called only when the name is absent; appends an empty multi-instance base. -/
def addBaseResource (oi : MOInstance) (name : String) : MOInstance :=
  { oi with resources := oi.resources ++ [(name, ⟨true, defaultMValue, []⟩)] }

/-- create_dynamic_resource without the flag (cpp lines 110-113): the external
    model adds a single-instance resource when the name is free. -/
def addSingleResource (oi : MOInstance) (name : String) : MOInstance :=
  match findA oi.resources name with
  | some _ => oi
  | none => { oi with resources := oi.resources ++ [(name, ⟨false, defaultMValue, []⟩)] }

/-- create_dynamic_resource_instance (cpp lines 92-96): the external model
    creates the base resource when absent, then adds the indexed sub-instance
    when that index is free. -/
def addResourceInstance (oi : MOInstance) (name : String) (idx : Int) : MOInstance :=
  match findA oi.resources name with
  | some res =>
    match findA res.instances idx with
    | some _ => oi
    | none =>
      let res2 : MResource := { res with instances := res.instances ++ [(idx, defaultMValue)] }
      { oi with resources := setA oi.resources name res2 }
  | none =>
    { oi with resources := oi.resources ++ [(name, ⟨true, defaultMValue, [(idx, defaultMValue)]⟩)] }

/-- The per-resource loop of makeObject (cpp lines 69-125).  For each entry: when
    it is multi-instance (`instanceId ≠ -1`) and no resource of its name exists
    yet, create the base (a failure clears `allOk` but does not stop the loop);
    then create the resource instance (when `instanceId ≥ 0`) or the
    single-instance resource, again recording failure without stopping. -/
def makeResourcesLoop (env : Env) (oi : MOInstance) (allOk : Bool) :
    List DefResource → MOInstance × Bool
  | [] => (oi, allOk)
  | r :: rest =>
    let step1 : MOInstance × Bool :=
      if r.instanceId ≠ -1 ∧ findA oi.resources r.name = none then
        if env.createResourceOk r.name then (addBaseResource oi r.name, allOk)
        else (oi, false)
      else (oi, allOk)
    let step2 : MOInstance × Bool :=
      if 0 ≤ r.instanceId then
        if env.createResourceInstanceOk r.name r.instanceId then
          (addResourceInstance step1.1 r.name r.instanceId, step1.2)
        else (step1.1, false)
      else
        if env.createResourceOk r.name then (addSingleResource step1.1 r.name, step1.2)
        else (step1.1, false)
    makeResourcesLoop env step2.1 step2.2 rest

/-- M2MObjectHelper::makeObject — cpp lines 49-137.  `obj0` is `_object` as left
    by the constructor (a pre-existing shared object, or NULL); the result pairs
    the final `_object` with the returned Bool.  `junk` is the truth value of the
    local `objectInstance` pointer when the final return reads it without it ever
    having been assigned (source line 52 declares it without an initialiser). -/
def makeObject (env : Env) (defObject : Option DefObject) (obj0 : Option MObject)
    (junk : Bool) : Option MObject × Bool :=
  match defObject with
  | none => (obj0, junk)
  | some d =>
    let obj1 : Option MObject :=
      match obj0 with
      | some o => some o
      | none => if env.createObjectOk then some ⟨d.name, []⟩ else none
    match obj1 with
    | none => (none, junk)
    | some o =>
      if env.createInstanceOk then
        let oi0 : MOInstance := (findA o.instances d.instanceId).getD ⟨[]⟩
        let res := makeResourcesLoop env oi0 true d.resources
        let o2 : MObject := { o with instances := setOrAddA o.instances d.instanceId res.1 }
        (some o2, res.2)
      else (some o, false)

/-- Name-membership used by the specification of the builder loop. -/
def hasName (present : List String) (n : String) : Bool :=
  match present with
  | [] => false
  | a :: t => if n = a then true else hasName t n

/-- Insert a name when absent. -/
def insertName (present : List String) (k : String) : List String :=
  if hasName present k then present else present ++ [k]

/-- Names of the resources present in an object instance. -/
def resourceNames (oi : MOInstance) : List String :=
  oi.resources.map Prod.fst

/-- Specification of the builder loop's success flag: tracking only which
    resource names exist, every creation outcome demanded by the definition
    entries must be a success.  `present` is the set of resource names existing
    under the object instance before the loop runs. -/
def defResourcesAllOk (env : Env) (present : List String) :
    List DefResource → Bool
  | [] => true
  | r :: rest =>
    let baseMissing : Bool := decide (r.instanceId ≠ -1) && !(hasName present r.name)
    let ok1 : Bool := !baseMissing || env.createResourceOk r.name
    let present1 : List String :=
      if baseMissing && env.createResourceOk r.name then insertName present r.name
      else present
    let ok2 : Bool :=
      if 0 ≤ r.instanceId then env.createResourceInstanceOk r.name r.instanceId
      else env.createResourceOk r.name
    let present2 : List String := if ok2 then insertName present1 r.name else present1
    ok1 && (ok2 && defResourcesAllOk env present2 rest)

/-- The object instance the builder loop starts from: the existing instance of a
    pre-created object when present, empty otherwise. -/
def buildStartInstance (d : DefObject) (obj0 : Option MObject) : MOInstance :=
  match obj0 with
  | some o => (findA o.instances d.instanceId).getD ⟨[]⟩
  | none => ⟨[]⟩

/-- A trivial snprintf model used for concrete evaluations. -/
def snpW : String → FloatVal → String := fun _ _ => ""

/-- A trivial sscanf model used for concrete evaluations. -/
def sscW : String → FloatVal := fun _ => ⟨0⟩

/-- Environment in which every external creation call succeeds. -/
def envW : Env := ⟨true, true, fun _ => true, fun _ _ => true⟩

/-- Environment in which create_object fails and everything else succeeds. -/
def envNoObject : Env := ⟨false, true, fun _ => true, fun _ _ => true⟩

/-- A temperature-style definition: one single-instance FLOAT resource. -/
def dC1 : DefObject := ⟨0, "3303", [⟨-1, "5700", "temp", .FLOAT, true, 1, none⟩]⟩

/-- Definition used for the build witness: a single-instance resource and a
    two-instance multi-instance resource. -/
def dC1w : DefObject :=
  ⟨0, "3200", [⟨-1, "5500", "state", .BOOLEAN, true, 1, none⟩,
               ⟨0, "5750", "app", .STRING, false, 1, none⟩,
               ⟨1, "5750", "app", .STRING, false, 1, none⟩]⟩

/-- An on/off switch definition (single BOOLEAN resource). -/
def dC8 : DefObject := ⟨0, "3312", [⟨-1, "5850", "onoff", .BOOLEAN, false, 1, none⟩]⟩

/-- Definition with one resource of each scalar kind, single-instance. -/
def dRT : DefObject :=
  ⟨0, "3300", [⟨-1, "5506", "count", .INTEGER, true, 1, none⟩,
               ⟨-1, "5850", "onoff", .BOOLEAN, false, 1, none⟩,
               ⟨-1, "5750", "app", .STRING, false, 1, none⟩,
               ⟨-1, "5518", "time", .TIME, false, 1, none⟩]⟩

/-- The store produced by a successful build of dRT. -/
def oRT : MObject := ((makeObject envW (some dRT) none false).1).getD ⟨"", []⟩

/-- Definition with one single-instance STRING resource. -/
def dS : DefObject := ⟨0, "3341", [⟨-1, "5527", "text", .STRING, false, 1, none⟩]⟩

/-- The store for dS after a build. -/
def oS0 : MObject := ((makeObject envW (some dS) none false).1).getD ⟨"", []⟩

/-- The dS store holding the six-byte string "abcdef". -/
def oS : MObject :=
  ((setResourceValueStr snpW dS (some oS0) "abcdef" "5527" (-1)).1).getD ⟨"", []⟩

/-- FLOAT resource declaring the format string "%g". -/
def dC6 : DefObject := ⟨0, "3303", [⟨-1, "5700", "temp", .FLOAT, true, 1, some "%g"⟩]⟩

/-- The store for dC6 after a build. -/
def oC6 : MObject := ((makeObject envW (some dC6) none false).1).getD ⟨"", []⟩

/-- snprintf model that distinguishes format strings: the output is the format
    string itself. -/
def snpFmt : String → FloatVal → String := fun fmt _ => fmt

/-- sscanf model mapping the text rendered under "%g" to 1, anything else to 0. -/
def sscFmt : String → FloatVal := fun s => if s = "%g" then ⟨1⟩ else ⟨0⟩

/-- A sample float bit pattern. -/
def fvC6 : FloatVal := ⟨5⟩

/-- Two declared instances (0 and 1) of resource "5700". -/
def dC7 : DefObject :=
  ⟨0, "3303", [⟨0, "5700", "temp", .FLOAT, true, 1, none⟩,
               ⟨1, "5700", "temp", .FLOAT, true, 1, none⟩]⟩

/-- A store in which only instance 0 of the multi-instance resource exists. -/
def oC7 : MObject :=
  ⟨"3303", [(0, ⟨[("5700", ⟨true, defaultMValue, [(0, defaultMValue)]⟩)]⟩)]⟩

theorem findA_setA {α β : Type} [DecidableEq α] (l : List (α × β)) (k : α) (v : β) (n : α) :
    findA (setA l k v) n =
      if n = k then (match findA l k with | some _ => some v | none => none)
      else findA l n := by
  induction l with
  | nil =>
    by_cases hnk : n = k <;> simp [findA, setA, hnk]
  | cons p t ih =>
    obtain ⟨a, b⟩ := p
    by_cases hka : k = a
    · subst hka
      by_cases hna : n = k <;> simp [findA, setA, hna]
    · by_cases hna : n = a
      · subst hna
        have hnk : ¬ n = k := fun hh => hka hh.symm
        simp [findA, setA, hka, hnk]
      · simp [findA, setA, hka, hna, ih]

theorem findA_append {α β : Type} [DecidableEq α] (l1 l2 : List (α × β)) (k : α) :
    findA (l1 ++ l2) k =
      match findA l1 k with
      | some v => some v
      | none => findA l2 k := by
  induction l1 with
  | nil => simp [findA]
  | cons p t ih =>
    obtain ⟨a, b⟩ := p
    by_cases hka : k = a <;> simp [findA, hka, ih]

theorem findA_setOrAddA_self {α β : Type} [DecidableEq α] (l : List (α × β)) (k : α) (v : β) :
    findA (setOrAddA l k v) k = some v := by
  unfold setOrAddA
  cases h : findA l k with
  | none => simp [findA_append, h, findA]
  | some b => simp [findA_setA, h]

theorem findA_append_isSome {α β : Type} [DecidableEq α] (l ext : List (α × β)) (n : α)
    (h : (findA l n).isSome = true) : (findA (l ++ ext) n).isSome = true := by
  rw [findA_append]
  cases hf : findA l n with
  | none => rw [hf] at h; cases h
  | some b => simp [hf]

theorem findA_setA_isSome {α β : Type} [DecidableEq α] (l : List (α × β)) (k : α) (v : β) (n : α)
    (h : (findA l n).isSome = true) : (findA (setA l k v) n).isSome = true := by
  rw [findA_setA]
  by_cases hnk : n = k
  · subst hnk
    rw [if_pos rfl]
    cases hf : findA l n with
    | none => rw [hf] at h; cases h
    | some b => simp
  · rw [if_neg hnk]; exact h

theorem readStored_writeStored (d : DefObject) (obj : Option MObject) (rn : String)
    (wi : Int) (v : MValue) (o2 : MObject)
    (h : writeStored d obj rn wi v = some o2) :
    readStored d (some o2) rn wi = some v := by
  cases obj with
  | none => simp [writeStored] at h
  | some o =>
    cases h1 : findA o.instances d.instanceId with
    | none => simp [writeStored, h1] at h
    | some oi =>
      cases h2 : findA oi.resources rn with
      | none => simp [writeStored, h1, h2] at h
      | some res =>
        by_cases hm : res.multiInstance
        · cases h3 : findA res.instances wi with
          | none => simp [writeStored, h1, h2, hm, h3] at h
          | some old =>
            simp only [writeStored, h1, h2, hm, if_true, h3] at h
            rw [← h]
            simp [readStored, findA_setA, h1, h2, h3, hm]
        · simp only [writeStored, h1, h2, hm] at h
          rw [← h]
          simp [readStored, findA_setA, h1, h2, hm]

theorem hasName_append (p : List String) (k n : String) :
    hasName (p ++ [k]) n = (hasName p n || decide (n = k)) := by
  induction p with
  | nil => simp [hasName]
  | cons a t ih => by_cases hna : n = a <;> simp [hasName, hna, ih]

theorem hasName_insertName (p : List String) (k n : String) :
    hasName (insertName p k) n = (hasName p n || decide (n = k)) := by
  unfold insertName
  by_cases hk : hasName p k
  · rw [if_pos hk]
    by_cases hnk : n = k
    · subst hnk; simp [hk]
    · simp [hnk]
  · rw [if_neg hk]; exact hasName_append p k n

theorem hasName_map_fst (l : List (String × MResource)) (n : String) :
    hasName (l.map Prod.fst) n = (findA l n).isSome := by
  induction l with
  | nil => simp [hasName, findA]
  | cons p t ih =>
    obtain ⟨a, b⟩ := p
    by_cases hna : n = a <;> simp [hasName, findA, hna, ih]

theorem hasName_resourceNames (oi : MOInstance) (n : String) :
    hasName (resourceNames oi) n = (findA oi.resources n).isSome :=
  hasName_map_fst oi.resources n

theorem presence_addBaseResource (oi : MOInstance) (present : List String) (k : String)
    (hR : ∀ n, hasName present n = (findA oi.resources n).isSome) :
    ∀ n, hasName (present ++ [k]) n = (findA (addBaseResource oi k).resources n).isSome := by
  intro n
  rw [hasName_append, hR n]
  unfold addBaseResource
  simp only [findA_append]
  cases hf : findA oi.resources n with
  | some b => simp
  | none => by_cases hnk : n = k <;> simp [findA, hnk]

theorem presence_addSingleResource (oi : MOInstance) (present : List String) (k : String)
    (hR : ∀ n, hasName present n = (findA oi.resources n).isSome) :
    ∀ n, hasName (insertName present k) n = (findA (addSingleResource oi k).resources n).isSome := by
  intro n
  rw [hasName_insertName, hR n]
  unfold addSingleResource
  cases hk : findA oi.resources k with
  | some res =>
    by_cases hnk : n = k
    · subst hnk; simp [hk]
    · simp [hnk]
  | none =>
    simp only [findA_append]
    cases hf : findA oi.resources n with
    | some b => simp
    | none => by_cases hnk : n = k <;> simp [findA, hnk]

theorem presence_addResourceInstance (oi : MOInstance) (present : List String) (k : String)
    (i : Int) (hR : ∀ n, hasName present n = (findA oi.resources n).isSome) :
    ∀ n, hasName (insertName present k) n = (findA (addResourceInstance oi k i).resources n).isSome := by
  intro n
  rw [hasName_insertName, hR n]
  unfold addResourceInstance
  cases hk : findA oi.resources k with
  | some res =>
    cases hi : findA res.instances i with
    | some w =>
      simp only [hi]
      by_cases hnk : n = k
      · subst hnk; simp [hk]
      · simp [hnk]
    | none =>
      simp only [hi]
      rw [findA_setA]
      by_cases hnk : n = k
      · subst hnk; simp [hk]
      · simp [hnk]
  | none =>
    simp only [findA_append]
    cases hf : findA oi.resources n with
    | some b => simp
    | none => by_cases hnk : n = k <;> simp [findA, hnk]

theorem makeResourcesLoop_spec (env : Env) (rs : List DefResource) :
    ∀ (oi : MOInstance) (present : List String) (allOk : Bool),
    (∀ n : String, hasName present n = (findA oi.resources n).isSome) →
    (makeResourcesLoop env oi allOk rs).2 = (allOk && defResourcesAllOk env present rs) := by
  induction rs with
  | nil =>
    intro oi present allOk hR
    simp [makeResourcesLoop, defResourcesAllOk]
  | cons r rest ih =>
    intro oi present allOk hR
    have hname : hasName present r.name = (findA oi.resources r.name).isSome := hR r.name
    by_cases hA : r.instanceId = -1
    · have hcond : ¬ (r.instanceId ≠ -1 ∧ findA oi.resources r.name = none) := by
        intro hc; exact hc.1 hA
      have hge : ¬ ((0 : Int) ≤ r.instanceId) := by rw [hA]; decide
      have hd1 : (decide (r.instanceId ≠ -1)) = false := by simp [hA]
      cases hc1 : env.createResourceOk r.name with
      | true =>
        simp [makeResourcesLoop, defResourcesAllOk, hcond, hge, hd1, hc1,
          ih (addSingleResource oi r.name) (insertName present r.name) allOk
            (presence_addSingleResource oi present r.name hR)]
      | false =>
        simp [makeResourcesLoop, defResourcesAllOk, hcond, hge, hd1, hc1,
          ih oi present false hR]
    · have hA2 : r.instanceId ≠ -1 := hA
      have hd1 : (decide (r.instanceId ≠ -1)) = true := by simp [hA2]
      cases hf : findA oi.resources r.name with
      | none =>
        have hcond : (r.instanceId ≠ -1 ∧ findA oi.resources r.name = none) := ⟨hA2, hf⟩
        have hnm : hasName present r.name = false := by rw [hname, hf]; rfl
        cases hc1 : env.createResourceOk r.name with
        | true =>
          have hins : insertName present r.name = present ++ [r.name] := by
            unfold insertName; rw [hnm]; rfl
          have hR1 : ∀ n, hasName (insertName present r.name) n =
              (findA (addBaseResource oi r.name).resources n).isSome := by
            intro n; rw [hins]; exact presence_addBaseResource oi present r.name hR n
          by_cases hge : (0 : Int) ≤ r.instanceId
          · cases hc2 : env.createResourceInstanceOk r.name r.instanceId with
            | true =>
              simp [makeResourcesLoop, defResourcesAllOk, hcond, hge, hd1, hc1, hc2, hnm,
                ih (addResourceInstance (addBaseResource oi r.name) r.name r.instanceId)
                  (insertName (insertName present r.name) r.name) allOk
                  (presence_addResourceInstance (addBaseResource oi r.name)
                    (insertName present r.name) r.name r.instanceId hR1)]
            | false =>
              simp [makeResourcesLoop, defResourcesAllOk, hcond, hge, hd1, hc1, hc2, hnm,
                ih (addBaseResource oi r.name) (insertName present r.name) false hR1]
          · simp [makeResourcesLoop, defResourcesAllOk, hcond, hge, hd1, hc1, hnm,
              ih (addSingleResource (addBaseResource oi r.name) r.name)
                (insertName (insertName present r.name) r.name) allOk
                (presence_addSingleResource (addBaseResource oi r.name)
                  (insertName present r.name) r.name hR1)]
        | false =>
          by_cases hge : (0 : Int) ≤ r.instanceId
          · cases hc2 : env.createResourceInstanceOk r.name r.instanceId with
            | true =>
              simp [makeResourcesLoop, defResourcesAllOk, hcond, hge, hd1, hc1, hc2, hnm,
                ih (addResourceInstance oi r.name r.instanceId)
                  (insertName present r.name) false
                  (presence_addResourceInstance oi present r.name r.instanceId hR)]
            | false =>
              simp [makeResourcesLoop, defResourcesAllOk, hcond, hge, hd1, hc1, hc2, hnm,
                ih oi present false hR]
          · simp [makeResourcesLoop, defResourcesAllOk, hcond, hge, hd1, hc1, hnm,
              ih oi present false hR]
      | some res =>
        have hcond : ¬ (r.instanceId ≠ -1 ∧ findA oi.resources r.name = none) := by
          intro hc; rw [hf] at hc; exact Option.noConfusion hc.2
        have hnm : hasName present r.name = true := by rw [hname, hf]; rfl
        by_cases hge : (0 : Int) ≤ r.instanceId
        · cases hc2 : env.createResourceInstanceOk r.name r.instanceId with
          | true =>
            simp [makeResourcesLoop, defResourcesAllOk, hcond, hge, hd1, hc2, hnm,
              ih (addResourceInstance oi r.name r.instanceId)
                (insertName present r.name) allOk
                (presence_addResourceInstance oi present r.name r.instanceId hR)]
          | false =>
            simp [makeResourcesLoop, defResourcesAllOk, hcond, hge, hd1, hc2, hnm,
              ih oi present false hR]
        · cases hc1 : env.createResourceOk r.name with
          | true =>
            simp [makeResourcesLoop, defResourcesAllOk, hcond, hge, hd1, hc1, hnm,
              ih (addSingleResource oi r.name) (insertName present r.name) allOk
                (presence_addSingleResource oi present r.name hR)]
          | false =>
            simp [makeResourcesLoop, defResourcesAllOk, hcond, hge, hd1, hc1, hnm,
              ih oi present false hR]

theorem isSome_addBaseResource (oi : MOInstance) (k n : String)
    (h : (findA oi.resources n).isSome = true) :
    (findA (addBaseResource oi k).resources n).isSome = true := by
  unfold addBaseResource
  exact findA_append_isSome _ _ _ h

theorem isSome_addSingleResource (oi : MOInstance) (k n : String)
    (h : (findA oi.resources n).isSome = true) :
    (findA (addSingleResource oi k).resources n).isSome = true := by
  unfold addSingleResource
  cases hk : findA oi.resources k with
  | some res => simpa using h
  | none =>
    simp only
    exact findA_append_isSome _ _ _ h

theorem isSome_addResourceInstance (oi : MOInstance) (k : String) (i : Int) (n : String)
    (h : (findA oi.resources n).isSome = true) :
    (findA (addResourceInstance oi k i).resources n).isSome = true := by
  unfold addResourceInstance
  cases hk : findA oi.resources k with
  | some res =>
    cases hi : findA res.instances i with
    | some w => simpa [hi] using h
    | none =>
      simp only [hi]
      exact findA_setA_isSome _ _ _ _ h
  | none =>
    simp only
    exact findA_append_isSome _ _ _ h

theorem isSome_addSingleResource_self (oi : MOInstance) (k : String) :
    (findA (addSingleResource oi k).resources k).isSome = true := by
  unfold addSingleResource
  cases hk : findA oi.resources k with
  | some res => simp [hk]
  | none =>
    simp only
    rw [findA_append, hk]
    simp [findA]

theorem makeResourcesLoop_mono (env : Env) (rs : List DefResource) :
    ∀ (oi : MOInstance) (allOk : Bool) (n : String),
    (findA oi.resources n).isSome = true →
    (findA (makeResourcesLoop env oi allOk rs).1.resources n).isSome = true := by
  induction rs with
  | nil =>
    intro oi allOk n h
    simpa [makeResourcesLoop] using h
  | cons r rest ih =>
    intro oi allOk n h
    by_cases hcond : r.instanceId ≠ -1 ∧ findA oi.resources r.name = none
    · obtain ⟨hA2, hf⟩ := hcond
      cases hc1 : env.createResourceOk r.name with
      | true =>
        by_cases hge : (0 : Int) ≤ r.instanceId
        · cases hc2 : env.createResourceInstanceOk r.name r.instanceId with
          | true =>
            simp only [makeResourcesLoop]
            simp [hA2, hf, hc1, hge, hc2]
            exact ih _ _ n (isSome_addResourceInstance _ _ _ _ (isSome_addBaseResource _ _ _ h))
          | false =>
            simp only [makeResourcesLoop]
            simp [hA2, hf, hc1, hge, hc2]
            exact ih _ _ n (isSome_addBaseResource _ _ _ h)
        · simp only [makeResourcesLoop]
          simp [hA2, hf, hc1, hge]
          exact ih _ _ n (isSome_addSingleResource _ _ _ (isSome_addBaseResource _ _ _ h))
      | false =>
        by_cases hge : (0 : Int) ≤ r.instanceId
        · cases hc2 : env.createResourceInstanceOk r.name r.instanceId with
          | true =>
            simp only [makeResourcesLoop]
            simp [hA2, hf, hc1, hge, hc2]
            exact ih _ _ n (isSome_addResourceInstance _ _ _ _ h)
          | false =>
            simp only [makeResourcesLoop]
            simp [hA2, hf, hc1, hge, hc2]
            exact ih _ _ n h
        · simp only [makeResourcesLoop]
          simp [hA2, hf, hc1, hge]
          exact ih _ _ n h
    · by_cases hge : (0 : Int) ≤ r.instanceId
      · cases hc2 : env.createResourceInstanceOk r.name r.instanceId with
        | true =>
          simp only [makeResourcesLoop]
          simp [hcond, hge, hc2]
          exact ih _ _ n (isSome_addResourceInstance _ _ _ _ h)
        | false =>
          simp only [makeResourcesLoop]
          simp [hcond, hge, hc2]
          exact ih _ _ n h
      · cases hc1 : env.createResourceOk r.name with
        | true =>
          simp only [makeResourcesLoop]
          simp [hcond, hge, hc1]
          exact ih _ _ n (isSome_addSingleResource _ _ _ h)
        | false =>
          simp only [makeResourcesLoop]
          simp [hcond, hge, hc1]
          exact ih _ _ n h

theorem makeResourcesLoop_single_created (env : Env) (rs : List DefResource) :
    ∀ (oi : MOInstance) (allOk : Bool) (r : DefResource),
    r ∈ rs → r.instanceId = -1 → env.createResourceOk r.name = true →
    (findA (makeResourcesLoop env oi allOk rs).1.resources r.name).isSome = true := by
  induction rs with
  | nil =>
    intro oi allOk r hmem
    exact absurd hmem (List.not_mem_nil r)
  | cons hd rest ih =>
    intro oi allOk r hmem hinst hok
    rcases List.mem_cons.mp hmem with heq | hmem2
    · subst heq
      have hcond : ¬ (r.instanceId ≠ -1 ∧ findA oi.resources r.name = none) :=
        fun hc => hc.1 hinst
      have hge : ¬ ((0 : Int) ≤ r.instanceId) := by rw [hinst]; decide
      simp only [makeResourcesLoop]
      simp [hcond, hge, hok]
      exact makeResourcesLoop_mono env rest _ _ _ (isSome_addSingleResource_self oi r.name)
    · simp only [makeResourcesLoop]
      exact ih _ _ r hmem2 hinst hok

/-- Claim C1 (amended): provided a definition is supplied and the underlying
    object is available (a pre-existing handle, or the factory's create_object
    call succeeds — otherwise the return value is the indeterminate value of the
    uninitialised `objectInstance` local, see the counterexample), makeObject
    returns success iff creation of the object instance succeeded and every
    resource (and resource sub-instance) declared in the ObjectDefinition was
    created successfully; moreover an individual resource-creation failure does
    not abort processing of the remaining resources: every declared
    single-instance resource whose own creation call succeeds is present in the
    final object, whatever happened to the other resources. -/
theorem makeObject_success_iff (env : Env) (d : DefObject) (obj0 : Option MObject)
    (junk : Bool) (hobj : obj0 ≠ none ∨ env.createObjectOk = true) :
    ((makeObject env (some d) obj0 junk).2 = true ↔
      (env.createInstanceOk = true ∧
       defResourcesAllOk env (resourceNames (buildStartInstance d obj0)) d.resources = true))
  ∧ (env.createInstanceOk = true →
     ∀ r ∈ d.resources, r.instanceId = -1 → env.createResourceOk r.name = true →
     ∃ o1 oi1, (makeObject env (some d) obj0 junk).1 = some o1 ∧
       findA o1.instances d.instanceId = some oi1 ∧
       (findA oi1.resources r.name).isSome = true) := by
  cases obj0 with
  | some o =>
    cases hci : env.createInstanceOk with
    | true =>
      have hmk : makeObject env (some d) (some o) junk = (some { o with instances := setOrAddA o.instances d.instanceId (makeResourcesLoop env ((findA o.instances d.instanceId).getD ⟨[]⟩) true d.resources).1 }, (makeResourcesLoop env ((findA o.instances d.instanceId).getD ⟨[]⟩) true d.resources).2) := by
        simp only [makeObject]
        rw [if_pos hci]
      have hloop := makeResourcesLoop_spec env d.resources
        ((findA o.instances d.instanceId).getD ⟨[]⟩)
        (resourceNames ((findA o.instances d.instanceId).getD ⟨[]⟩)) true
        (fun n => hasName_resourceNames _ n)
      constructor
      · rw [hmk]
        simp only [buildStartInstance]
        rw [hloop]
        simp
      · intro _ r hmem hinst hok
        refine ⟨{ o with instances := setOrAddA o.instances d.instanceId (makeResourcesLoop env ((findA o.instances d.instanceId).getD ⟨[]⟩) true d.resources).1 }, (makeResourcesLoop env ((findA o.instances d.instanceId).getD ⟨[]⟩) true d.resources).1, ?_, ?_, ?_⟩
        · rw [hmk]
        · exact findA_setOrAddA_self _ _ _
        · exact makeResourcesLoop_single_created env d.resources _ _ r hmem hinst hok
    | false =>
      have hmk : makeObject env (some d) (some o) junk = (some o, false) := by
        simp only [makeObject]
        rw [if_neg (by simp [hci])]
      constructor
      · rw [hmk]
        simp [hci]
      · intro h
        exact absurd h (by simp)
  | none =>
    have hco : env.createObjectOk = true := by
      rcases hobj with h | h
      · exact absurd rfl h
      · exact h
    cases hci : env.createInstanceOk with
    | true =>
      have hmk : makeObject env (some d) none junk = (some { name := d.name, instances := setOrAddA ([] : List (Int × MOInstance)) d.instanceId (makeResourcesLoop env ⟨[]⟩ true d.resources).1 }, (makeResourcesLoop env ⟨[]⟩ true d.resources).2) := by
        simp only [makeObject]
        rw [hco]
        simp only [if_true]
        rw [if_pos hci]
        rfl
      have hloop := makeResourcesLoop_spec env d.resources ⟨[]⟩
        (resourceNames ⟨[]⟩) true (fun n => hasName_resourceNames _ n)
      constructor
      · rw [hmk]
        simp only [buildStartInstance]
        rw [hloop]
        simp
      · intro _ r hmem hinst hok
        refine ⟨{ name := d.name, instances := setOrAddA ([] : List (Int × MOInstance)) d.instanceId (makeResourcesLoop env ⟨[]⟩ true d.resources).1 }, (makeResourcesLoop env ⟨[]⟩ true d.resources).1, ?_, ?_, ?_⟩
        · rw [hmk]
        · show findA (setOrAddA ([] : List (Int × MOInstance)) d.instanceId (makeResourcesLoop env ⟨[]⟩ true d.resources).1) d.instanceId = some (makeResourcesLoop env ⟨[]⟩ true d.resources).1
          exact findA_setOrAddA_self _ _ _
        · exact makeResourcesLoop_single_created env d.resources _ _ r hmem hinst hok
    | false =>
      have hmk : makeObject env (some d) none junk = (some ⟨d.name, []⟩, false) := by
        simp only [makeObject]
        rw [hco]
        simp only [if_true]
        rw [if_neg (by simp [hci])]
      constructor
      · rw [hmk]
        simp [hci]
      · intro h
        exact absurd h (by simp)

/-- Claim C1, witness: the amended theorem applied to a concrete build (fresh
    object, every creation call succeeding). -/
theorem makeObject_success_iff_witness :
    envW.createObjectOk = true ∧
    (((makeObject envW (some dC1w) none true).2 = true ↔
       (envW.createInstanceOk = true ∧
        defResourcesAllOk envW (resourceNames (buildStartInstance dC1w none)) dC1w.resources = true))
     ∧ (envW.createInstanceOk = true →
        ∀ r ∈ dC1w.resources, r.instanceId = -1 → envW.createResourceOk r.name = true →
        ∃ o1 oi1, (makeObject envW (some dC1w) none true).1 = some o1 ∧
          findA o1.instances dC1w.instanceId = some oi1 ∧
          (findA oi1.resources r.name).isSome = true)) :=
  ⟨rfl, makeObject_success_iff envW dC1w none true (Or.inr rfl)⟩

/-- Claim C1, counterexample to the claim as stated: with no pre-existing handle
    and the factory's create_object call failing, makeObject creates nothing —
    in particular no object-instance creation succeeded — yet it returns true
    when the indeterminate value of the uninitialised `objectInstance` local
    reads as non-NULL (source line 52 declares the local without an initialiser
    and line 136 reads it on this path without any assignment). -/
theorem makeObject_uninitialised_cex :
    makeObject envNoObject (some dC1) none true = (none, true) := rfl

/-- Claim C8: when no pre-existing object handle was supplied and creation of
    the new object fails, makeObject indeed creates nothing further (the store
    stays empty), but its return value is the indeterminate truth value of the
    uninitialised `objectInstance` local rather than the documented false: with
    non-NULL stack residue the call reports success.  This contradicts the
    header's contract ("@return true if successful, otherwise false"). -/
theorem makeObject_create_fail_junk :
    makeObject envNoObject (some dC8) none true = (none, true) := rfl

/-- Claim C9: makeObject invoked with a NULL definition returns the
    indeterminate value of the uninitialised `objectInstance` local instead of
    the documented false (the set/get accessors dereference the NULL definition
    outright, which the embedding cannot even represent as a return value). -/
theorem makeObject_null_def_junk :
    makeObject envW none none true = (none, true) := rfl

/-- Claim C2: for every resource declared Integer, Time, Boolean or String, and
    every representable value of the matching application type, a successful
    setResourceValue followed by getResourceValue on the same (resource name,
    instance) pair returns exactly the value that was set.  The Integer overload
    covers both INTEGER and TIME declared kinds. -/
theorem set_get_roundtrip (snp : String → FloatVal → String) (ssc : String → FloatVal)
    (d : DefObject) (obj : Option MObject) (rn : String) (wi : Int) :
    (∀ (v : Int) (o1 : Option MObject),
       setResourceValueInt snp d obj v rn wi = (o1, true) →
       getResourceValueInt ssc d o1 rn wi = some v)
  ∧ (∀ (b : Bool) (o1 : Option MObject),
       setResourceValueBool snp d obj b rn wi = (o1, true) →
       getResourceValueBool ssc d o1 rn wi = some b)
  ∧ (∀ (s : String) (o1 : Option MObject),
       setResourceValueStr snp d obj s rn wi = (o1, true) →
       getResourceValueStr ssc d o1 rn wi = some s) := by
  refine ⟨?_, ?_, ?_⟩
  · intro v o1 h
    simp only [setResourceValueInt] at h
    cases hl : lookupDef d rn wi with
    | none => simp only [hl] at h; simp at h
    | some r =>
      simp only [hl] at h
      by_cases ht : r.type = .INTEGER ∨ r.type = .TIME
      · rw [if_pos ht] at h
        have ht2 := ht
        simp only [getResourceValueInt, hl]
        rw [if_pos ht]
        rcases ht2 with h1 | h1 <;>
        · rw [h1] at h
          simp only [setResourceValuePriv, AppValue.asInt] at h
          cases hw : writeStored d obj rn wi (.vInt v) with
          | none => rw [hw] at h; simp at h
          | some o2 =>
            rw [hw] at h
            simp only [Prod.mk.injEq, and_true] at h
            rw [← h]
            simp only [getResourceValuePriv]
            rw [readStored_writeStored d obj rn wi _ o2 hw, h1]
            simp [mGetValueInt, AppValue.asInt]
      · rw [if_neg ht] at h
        simp at h
  · intro b o1 h
    simp only [setResourceValueBool] at h
    cases hl : lookupDef d rn wi with
    | none => simp only [hl] at h; simp at h
    | some r =>
      simp only [hl] at h
      by_cases ht : r.type = .BOOLEAN
      · rw [if_pos ht] at h
        rw [ht] at h
        simp only [setResourceValuePriv, AppValue.asBool] at h
        cases hw : writeStored d obj rn wi (.vInt (if b then 1 else 0)) with
        | none => rw [hw] at h; simp at h
        | some o2 =>
          rw [hw] at h
          simp only [Prod.mk.injEq, and_true] at h
          rw [← h]
          simp only [getResourceValueBool, hl]
          rw [if_pos ht]
          simp only [getResourceValuePriv]
          rw [readStored_writeStored d obj rn wi _ o2 hw, ht]
          cases b <;> simp [mGetValueInt, AppValue.asBool]
      · rw [if_neg ht] at h
        simp at h
  · intro s o1 h
    simp only [setResourceValueStr] at h
    cases hl : lookupDef d rn wi with
    | none => simp only [hl] at h; simp at h
    | some r =>
      simp only [hl] at h
      by_cases ht : r.type = .STRING
      · rw [if_pos ht] at h
        rw [ht] at h
        simp only [setResourceValuePriv, AppValue.asStr] at h
        cases hw : writeStored d obj rn wi (.vStr s) with
        | none => rw [hw] at h; simp at h
        | some o2 =>
          rw [hw] at h
          simp only [Prod.mk.injEq, and_true] at h
          rw [← h]
          simp only [getResourceValueStr, hl]
          rw [if_pos ht]
          simp only [getResourceValuePriv]
          rw [readStored_writeStored d obj rn wi _ o2 hw, ht]
          simp [mGetValueString, AppValue.asStr]
      · rw [if_neg ht] at h
        simp at h

/-- Claim C2, witness: concrete round trips through a freshly built object for
    an Integer, a Boolean and a String resource. -/
theorem set_get_roundtrip_witness :
    getResourceValueInt sscW dRT (setResourceValueInt snpW dRT (some oRT) 42 "5506" (-1)).1 "5506" (-1) = some 42 ∧
    getResourceValueBool sscW dRT (setResourceValueBool snpW dRT (some oRT) true "5850" (-1)).1 "5850" (-1) = some true ∧
    getResourceValueStr sscW dRT (setResourceValueStr snpW dRT (some oRT) "hi" "5750" (-1)).1 "5750" (-1) = some "hi" :=
  ⟨(set_get_roundtrip snpW sscW dRT (some oRT) "5506" (-1)).1 42 _ rfl,
   (set_get_roundtrip snpW sscW dRT (some oRT) "5850" (-1)).2.1 true _ rfl,
   (set_get_roundtrip snpW sscW dRT (some oRT) "5750" (-1)).2.2 "hi" _ rfl⟩

theorem setPriv_false_unchanged (snp : String → FloatVal → String) (d : DefObject)
    (obj : Option MObject) (value : AppValue) (type : ResourceType) (rn : String)
    (wi : Int) (fmt : Option String) (o1 : Option MObject)
    (h : setResourceValuePriv snp d obj value type rn wi fmt = (o1, false)) : o1 = obj := by
  cases type <;> simp only [setResourceValuePriv] at h <;>
    first
    | (split at h
       · simp at h
       · simp only [Prod.mk.injEq] at h
         exact h.1.symm)
    | (simp only [Prod.mk.injEq] at h
       exact h.1.symm)

theorem setResourceValueInt_false_unchanged (snp : String → FloatVal → String)
    (d : DefObject) (obj : Option MObject) (v : Int) (rn : String) (wi : Int)
    (o1 : Option MObject) (h : setResourceValueInt snp d obj v rn wi = (o1, false)) :
    o1 = obj := by
  simp only [setResourceValueInt] at h
  cases hl : lookupDef d rn wi with
  | none =>
    simp only [hl, Prod.mk.injEq] at h
    exact h.1.symm
  | some r =>
    simp only [hl] at h
    by_cases ht : r.type = .INTEGER ∨ r.type = .TIME
    · rw [if_pos ht] at h
      exact setPriv_false_unchanged _ _ _ _ _ _ _ _ _ h
    · rw [if_neg ht] at h
      simp only [Prod.mk.injEq] at h
      exact h.1.symm

theorem setResourceValueFloat_false_unchanged (snp : String → FloatVal → String)
    (d : DefObject) (obj : Option MObject) (f : FloatVal) (rn : String) (wi : Int)
    (o1 : Option MObject) (h : setResourceValueFloat snp d obj f rn wi = (o1, false)) :
    o1 = obj := by
  simp only [setResourceValueFloat] at h
  cases hl : lookupDef d rn wi with
  | none =>
    simp only [hl, Prod.mk.injEq] at h
    exact h.1.symm
  | some r =>
    simp only [hl] at h
    by_cases ht : r.type = .FLOAT
    · rw [if_pos ht] at h
      exact setPriv_false_unchanged _ _ _ _ _ _ _ _ _ h
    · rw [if_neg ht] at h
      simp only [Prod.mk.injEq] at h
      exact h.1.symm

theorem setResourceValueBool_false_unchanged (snp : String → FloatVal → String)
    (d : DefObject) (obj : Option MObject) (b : Bool) (rn : String) (wi : Int)
    (o1 : Option MObject) (h : setResourceValueBool snp d obj b rn wi = (o1, false)) :
    o1 = obj := by
  simp only [setResourceValueBool] at h
  cases hl : lookupDef d rn wi with
  | none =>
    simp only [hl, Prod.mk.injEq] at h
    exact h.1.symm
  | some r =>
    simp only [hl] at h
    by_cases ht : r.type = .BOOLEAN
    · rw [if_pos ht] at h
      exact setPriv_false_unchanged _ _ _ _ _ _ _ _ _ h
    · rw [if_neg ht] at h
      simp only [Prod.mk.injEq] at h
      exact h.1.symm

theorem setResourceValueCStr_false_unchanged (snp : String → FloatVal → String)
    (d : DefObject) (obj : Option MObject) (s : String) (rn : String) (wi : Int)
    (o1 : Option MObject) (h : setResourceValueCStr snp d obj s rn wi = (o1, false)) :
    o1 = obj := by
  simp only [setResourceValueCStr] at h
  cases hl : lookupDef d rn wi with
  | none =>
    simp only [hl, Prod.mk.injEq] at h
    exact h.1.symm
  | some r =>
    simp only [hl] at h
    by_cases ht : r.type = .STRING
    · rw [if_pos ht] at h
      exact setPriv_false_unchanged _ _ _ _ _ _ _ _ _ h
    · rw [if_neg ht] at h
      simp only [Prod.mk.injEq] at h
      exact h.1.symm

theorem setResourceValueStr_false_unchanged (snp : String → FloatVal → String)
    (d : DefObject) (obj : Option MObject) (s : String) (rn : String) (wi : Int)
    (o1 : Option MObject) (h : setResourceValueStr snp d obj s rn wi = (o1, false)) :
    o1 = obj := by
  simp only [setResourceValueStr] at h
  cases hl : lookupDef d rn wi with
  | none =>
    simp only [hl, Prod.mk.injEq] at h
    exact h.1.symm
  | some r =>
    simp only [hl] at h
    by_cases ht : r.type = .STRING
    · rw [if_pos ht] at h
      exact setPriv_false_unchanged _ _ _ _ _ _ _ _ _ h
    · rw [if_neg ht] at h
      simp only [Prod.mk.injEq] at h
      exact h.1.symm

/-- Claim C3: every set or get call whose application type does not match the
    resource's declared kind returns failure, and every failing set call leaves
    the store unchanged — set operations are all-or-nothing per call (gets never
    write to the store at all in this embedding, mirroring the source, where the
    get paths only write through the caller's out pointer). -/
theorem type_mismatch_rejected (snp : String → FloatVal → String) (ssc : String → FloatVal)
    (d : DefObject) (obj : Option MObject) (rn : String) (wi : Int) :
    (∀ (v : Int) (r : DefResource), lookupDef d rn wi = some r →
       ¬(r.type = .INTEGER ∨ r.type = .TIME) →
       setResourceValueInt snp d obj v rn wi = (obj, false))
  ∧ (∀ (f : FloatVal) (r : DefResource), lookupDef d rn wi = some r → r.type ≠ .FLOAT →
       setResourceValueFloat snp d obj f rn wi = (obj, false))
  ∧ (∀ (b : Bool) (r : DefResource), lookupDef d rn wi = some r → r.type ≠ .BOOLEAN →
       setResourceValueBool snp d obj b rn wi = (obj, false))
  ∧ (∀ (s : String) (r : DefResource), lookupDef d rn wi = some r → r.type ≠ .STRING →
       setResourceValueCStr snp d obj s rn wi = (obj, false))
  ∧ (∀ (s : String) (r : DefResource), lookupDef d rn wi = some r → r.type ≠ .STRING →
       setResourceValueStr snp d obj s rn wi = (obj, false))
  ∧ (∀ r : DefResource, lookupDef d rn wi = some r →
       ¬(r.type = .INTEGER ∨ r.type = .TIME) →
       getResourceValueInt ssc d obj rn wi = none)
  ∧ (∀ r : DefResource, lookupDef d rn wi = some r → r.type ≠ .FLOAT →
       getResourceValueFloat ssc d obj rn wi = none)
  ∧ (∀ r : DefResource, lookupDef d rn wi = some r → r.type ≠ .BOOLEAN →
       getResourceValueBool ssc d obj rn wi = none)
  ∧ (∀ r : DefResource, lookupDef d rn wi = some r → r.type ≠ .STRING →
       getResourceValueStr ssc d obj rn wi = none)
  ∧ (∀ (len : Nat) (r : DefResource), lookupDef d rn wi = some r → r.type ≠ .STRING →
       getResourceValueBuf ssc d obj len rn wi = (false, []))
  ∧ (∀ (v : Int) (o1 : Option MObject),
       setResourceValueInt snp d obj v rn wi = (o1, false) → o1 = obj)
  ∧ (∀ (f : FloatVal) (o1 : Option MObject),
       setResourceValueFloat snp d obj f rn wi = (o1, false) → o1 = obj)
  ∧ (∀ (b : Bool) (o1 : Option MObject),
       setResourceValueBool snp d obj b rn wi = (o1, false) → o1 = obj)
  ∧ (∀ (s : String) (o1 : Option MObject),
       setResourceValueCStr snp d obj s rn wi = (o1, false) → o1 = obj)
  ∧ (∀ (s : String) (o1 : Option MObject),
       setResourceValueStr snp d obj s rn wi = (o1, false) → o1 = obj) := by
  refine ⟨?_, ?_, ?_, ?_, ?_, ?_, ?_, ?_, ?_, ?_, ?_, ?_, ?_, ?_, ?_⟩
  · intro v r hl ht
    simp only [setResourceValueInt, hl]
    rw [if_neg ht]
  · intro f r hl ht
    simp only [setResourceValueFloat, hl]
    rw [if_neg ht]
  · intro b r hl ht
    simp only [setResourceValueBool, hl]
    rw [if_neg ht]
  · intro s r hl ht
    simp only [setResourceValueCStr, hl]
    rw [if_neg ht]
  · intro s r hl ht
    simp only [setResourceValueStr, hl]
    rw [if_neg ht]
  · intro r hl ht
    simp only [getResourceValueInt, hl]
    rw [if_neg ht]
  · intro r hl ht
    simp only [getResourceValueFloat, hl]
    rw [if_neg ht]
  · intro r hl ht
    simp only [getResourceValueBool, hl]
    rw [if_neg ht]
  · intro r hl ht
    simp only [getResourceValueStr, hl]
    rw [if_neg ht]
  · intro len r hl ht
    simp only [getResourceValueBuf, hl]
    rw [if_neg ht]
  · intro v o1 h
    exact setResourceValueInt_false_unchanged _ _ _ _ _ _ _ h
  · intro f o1 h
    exact setResourceValueFloat_false_unchanged _ _ _ _ _ _ _ h
  · intro b o1 h
    exact setResourceValueBool_false_unchanged _ _ _ _ _ _ _ h
  · intro s o1 h
    exact setResourceValueCStr_false_unchanged _ _ _ _ _ _ _ h
  · intro s o1 h
    exact setResourceValueStr_false_unchanged _ _ _ _ _ _ _ h

/-- Claim C3, witness: the Boolean accessors against the resource declared
    INTEGER fail, and the failing set leaves the store untouched. -/
theorem type_mismatch_rejected_witness :
    setResourceValueBool snpW dRT (some oRT) true "5506" (-1) = (some oRT, false) ∧
    getResourceValueBool sscW dRT (some oRT) "5506" (-1) = none ∧
    (setResourceValueBool snpW dRT (some oRT) true "5506" (-1)).1 = some oRT :=
  ⟨(type_mismatch_rejected snpW sscW dRT (some oRT) "5506" (-1)).2.2.1 true
     ⟨-1, "5506", "count", .INTEGER, true, 1, none⟩ rfl (by decide),
   (type_mismatch_rejected snpW sscW dRT (some oRT) "5506" (-1)).2.2.2.2.2.2.2.1
     ⟨-1, "5506", "count", .INTEGER, true, 1, none⟩ rfl (by decide),
   (type_mismatch_rejected snpW sscW dRT (some oRT) "5506" (-1)).2.2.2.2.2.2.2.2.2.2.2.2.1 true _ (by decide)⟩

/-- Claim C4: every set or get call whose (resource name, instance) pair has no
    matching entry in the definition table — name equal and declared instance
    index equal, with -1 the single-instance sentinel — fails, for all ten
    public accessor overloads. -/
theorem undeclared_resource_fails (snp : String → FloatVal → String)
    (ssc : String → FloatVal) (d : DefObject) (obj : Option MObject) (rn : String)
    (wi : Int) (len : Nat) (h : lookupDef d rn wi = none) :
    (∀ v : Int, setResourceValueInt snp d obj v rn wi = (obj, false))
  ∧ (∀ f : FloatVal, setResourceValueFloat snp d obj f rn wi = (obj, false))
  ∧ (∀ b : Bool, setResourceValueBool snp d obj b rn wi = (obj, false))
  ∧ (∀ s : String, setResourceValueCStr snp d obj s rn wi = (obj, false))
  ∧ (∀ s : String, setResourceValueStr snp d obj s rn wi = (obj, false))
  ∧ getResourceValueInt ssc d obj rn wi = none
  ∧ getResourceValueFloat ssc d obj rn wi = none
  ∧ getResourceValueBool ssc d obj rn wi = none
  ∧ getResourceValueStr ssc d obj rn wi = none
  ∧ getResourceValueBuf ssc d obj len rn wi = (false, []) := by
  refine ⟨?_, ?_, ?_, ?_, ?_, ?_, ?_, ?_, ?_, ?_⟩ <;>
    intros <;>
    simp [setResourceValueInt, setResourceValueFloat, setResourceValueBool,
      setResourceValueCStr, setResourceValueStr, getResourceValueInt,
      getResourceValueFloat, getResourceValueBool, getResourceValueStr,
      getResourceValueBuf, h]

/-- Claim C4, witness: accessors against the undeclared resource name "9999"
    and against a declared name with an undeclared instance index both fail. -/
theorem undeclared_resource_fails_witness :
    (∀ v : Int, setResourceValueInt snpW dRT (some oRT) v "9999" (-1) = (some oRT, false)) ∧
    getResourceValueInt sscW dRT (some oRT) "9999" (-1) = none ∧
    getResourceValueInt sscW dRT (some oRT) "5506" 3 = none :=
  ⟨(undeclared_resource_fails snpW sscW dRT (some oRT) "9999" (-1) 0 rfl).1,
   (undeclared_resource_fails snpW sscW dRT (some oRT) "9999" (-1) 0 rfl).2.2.2.2.2.1,
   (undeclared_resource_fails snpW sscW dRT (some oRT) "5506" 3 0 rfl).2.2.2.2.2.1⟩

/-- Claim C5 (amended): for a destination capacity len ≥ 1 the fixed-buffer
    string get writes exactly the first len-1 bytes of the stored string plus a
    null terminator — never more than len bytes, always ending in the terminator
    within that capacity — and it truncates rather than failing: its success
    flag coincides with the String-overload get's, independently of the stored
    length.  For len = 0 the call still reports success but writes nothing at
    all, so no terminator is placed (see the counterexample). -/
theorem getBuf_truncates (ssc : String → FloatVal) (d : DefObject) (obj : Option MObject)
    (len : Nat) (rn : String) (wi : Int) (hlen : 1 ≤ len) :
    ((getResourceValueBuf ssc d obj len rn wi).1 = (getResourceValueStr ssc d obj rn wi).isSome)
  ∧ (∀ s : String, getResourceValueStr ssc d obj rn wi = some s →
      (getResourceValueBuf ssc d obj len rn wi).2 = s.toList.take (len - 1) ++ [Char.ofNat 0] ∧
      (getResourceValueBuf ssc d obj len rn wi).2.length ≤ len ∧
      (getResourceValueBuf ssc d obj len rn wi).2.getLast? = some (Char.ofNat 0)) := by
  have hpos : 0 < len := hlen
  cases hl : lookupDef d rn wi with
  | none =>
    constructor
    · simp [getResourceValueBuf, getResourceValueStr, hl]
    · intro s hs
      simp [getResourceValueStr, hl] at hs
  | some r =>
    by_cases ht : r.type = .STRING
    · cases hp : getResourceValuePriv ssc d obj r.type rn wi with
      | none =>
        constructor
        · simp only [getResourceValueBuf, getResourceValueStr, hl]
          rw [if_pos ht, if_pos ht, hp]
          rfl
        · intro s hs
          simp only [getResourceValueStr, hl] at hs
          rw [if_pos ht, hp] at hs
          simp at hs
      | some v =>
        have hbuf : getResourceValueBuf ssc d obj len rn wi =
            (true, v.asStr.toList.take (len - 1) ++ [Char.ofNat 0]) := by
          simp only [getResourceValueBuf, hl]
          rw [if_pos ht]
          simp only [hp]
          rw [if_pos hpos]
        have hstr : getResourceValueStr ssc d obj rn wi = some v.asStr := by
          simp only [getResourceValueStr, hl]
          rw [if_pos ht, hp]
          rfl
        constructor
        · rw [hbuf, hstr]
          rfl
        · intro s hs
          rw [hstr] at hs
          have hsv : v.asStr = s := by
            simpa using hs
          subst hsv
          refine ⟨by rw [hbuf], ?_, ?_⟩
          · rw [hbuf]
            simp only [List.length_append, List.length_take, List.length_cons,
              List.length_nil]
            have h1 : min (len - 1) v.asStr.toList.length ≤ len - 1 := Nat.min_le_left _ _
            omega
          · rw [hbuf]
            simp
    · constructor
      · simp only [getResourceValueBuf, getResourceValueStr, hl]
        rw [if_neg ht, if_neg ht]
        rfl
      · intro s hs
        simp only [getResourceValueStr, hl] at hs
        rw [if_neg ht] at hs
        simp at hs

/-- Claim C5, witness: the amended theorem at capacity 4 against the stored
    six-byte string "abcdef": three bytes plus the terminator are written. -/
theorem getBuf_truncates_witness :
    ((getResourceValueBuf sscW dS (some oS) 4 "5527" (-1)).1 =
      (getResourceValueStr sscW dS (some oS) "5527" (-1)).isSome)
  ∧ ((getResourceValueBuf sscW dS (some oS) 4 "5527" (-1)).2 =
       "abcdef".toList.take (4 - 1) ++ [Char.ofNat 0] ∧
     (getResourceValueBuf sscW dS (some oS) 4 "5527" (-1)).2.length ≤ 4 ∧
     (getResourceValueBuf sscW dS (some oS) 4 "5527" (-1)).2.getLast? = some (Char.ofNat 0)) :=
  ⟨(getBuf_truncates sscW dS (some oS) 4 "5527" (-1) (by decide)).1,
   (getBuf_truncates sscW dS (some oS) 4 "5527" (-1) (by decide)).2 "abcdef" (by decide)⟩

/-- Claim C5, counterexample to "always null-terminates within that capacity":
    with a six-byte string stored and a destination capacity of 0, the call
    still reports success yet writes no byte at all — in particular no null
    terminator is placed (the source only writes when len > 0, cpp line 433). -/
theorem getBuf_len_zero_cex :
    getResourceValueBuf sscW dS (some oS) 0 "5527" (-1) = (true, []) := by decide

/-- Claim C6 (amended): for a resource declared Float, get after a successful
    set(f) returns the value obtained by re-parsing (sscanf, modelled by `ssc`)
    the text produced by formatting f (snprintf, modelled by `snp`) under the
    format string "%f" — not under the resource's declared format string: the
    float setter never fetches the declared format (cpp lines 200-225), so the
    private marshalling falls back to its "%f" default.  The round trip goes
    through this format/re-parse conversion rather than returning f itself. -/
theorem float_roundtrip (snp : String → FloatVal → String) (ssc : String → FloatVal)
    (d : DefObject) (obj : Option MObject) (rn : String) (wi : Int) :
    ∀ (f : FloatVal) (o1 : Option MObject),
      setResourceValueFloat snp d obj f rn wi = (o1, true) →
      getResourceValueFloat ssc d o1 rn wi = some (ssc (snp "%f" f)) := by
  intro f o1 h
  simp only [setResourceValueFloat] at h
  cases hl : lookupDef d rn wi with
  | none => simp only [hl] at h; simp at h
  | some r =>
    simp only [hl] at h
    by_cases ht : r.type = .FLOAT
    · rw [if_pos ht] at h
      rw [ht] at h
      simp only [setResourceValuePriv, AppValue.asFloat, Option.getD] at h
      cases hw : writeStored d obj rn wi (.vStr (snp "%f" f)) with
      | none => rw [hw] at h; simp at h
      | some o2 =>
        rw [hw] at h
        simp only [Prod.mk.injEq, and_true] at h
        rw [← h]
        simp only [getResourceValueFloat, hl]
        rw [if_pos ht]
        simp only [getResourceValuePriv]
        rw [readStored_writeStored d obj rn wi _ o2 hw, ht]
        simp [mGetValueString, AppValue.asFloat]
    · rw [if_neg ht] at h
      simp at h

/-- Claim C6, witness: the amended theorem at a concrete input, with the
    snprintf/sscanf models snpFmt/sscFmt. -/
theorem float_roundtrip_witness :
    getResourceValueFloat sscFmt dC6
      (setResourceValueFloat snpFmt dC6 (some oC6) fvC6 "5700" (-1)).1 "5700" (-1) =
      some (sscFmt (snpFmt "%f" fvC6)) :=
  float_roundtrip snpFmt sscFmt dC6 (some oC6) "5700" (-1) fvC6 _ (by decide)

/-- Claim C6, counterexample to the claim as stated: the resource of dC6
    declares the format string "%g", yet the text stored by set is produced with
    "%f".  Under the snprintf/sscanf model snpFmt/sscFmt — whose re-parse
    distinguishes the two renderings, as the real C functions do for formats
    such as "%.0f" — get returns the "%f" re-parse (bits 0), not the value
    obtained from the declared format string (bits 1). -/
theorem float_format_ignored_cex :
    ((lookupDef dC6 "5700" (-1)).map DefResource.format = some (some "%g"))
  ∧ (setResourceValueFloat snpFmt dC6 (some oC6) fvC6 "5700" (-1)).2 = true
  ∧ getResourceValueFloat sscFmt dC6
      (setResourceValueFloat snpFmt dC6 (some oC6) fvC6 "5700" (-1)).1 "5700" (-1) = some ⟨0⟩
  ∧ sscFmt (snpFmt "%g" fvC6) = ⟨1⟩ :=
  ⟨rfl, rfl, rfl, rfl⟩

/-- Claim C7: for every set or get (any declared kind) on a resource whose
    storage supports multiple instances, if the resource instance for the
    requested index does not exist in the external object model, the call fails
    rather than reading or writing anything: the private set returns the store
    unchanged with false, and the private get yields nothing. -/
theorem missing_instance_fails (snp : String → FloatVal → String) (ssc : String → FloatVal)
    (d : DefObject) (o : MObject) (oi : MOInstance) (res : MResource)
    (value : AppValue) (type : ResourceType) (rn : String) (wi : Int) (fmt : Option String)
    (h1 : findA o.instances d.instanceId = some oi)
    (h2 : findA oi.resources rn = some res)
    (h3 : res.multiInstance = true)
    (h4 : findA res.instances wi = none) :
    setResourceValuePriv snp d (some o) value type rn wi fmt = (some o, false) ∧
    getResourceValuePriv ssc d (some o) type rn wi = none := by
  have hwAll : ∀ v : MValue, writeStored d (some o) rn wi v = none := by
    intro v
    simp [writeStored, h1, h2, h3, h4]
  have hr : readStored d (some o) rn wi = none := by
    simp [readStored, h1, h2, h3, h4]
  constructor
  · cases type <;> simp [setResourceValuePriv, hwAll]
  · simp [getResourceValuePriv, hr]

/-- Claim C7, witness: instance 1 of the multi-instance resource "5700" is
    declared in the table but absent from the store, so both accessors fail. -/
theorem missing_instance_fails_witness :
    setResourceValuePriv snpW dC7 (some oC7) (.flt ⟨3⟩) .FLOAT "5700" 1 none = (some oC7, false) ∧
    getResourceValuePriv sscW dC7 (some oC7) .FLOAT "5700" 1 = none :=
  missing_instance_fails snpW sscW dC7 oC7
    ⟨[("5700", ⟨true, defaultMValue, [(0, defaultMValue)]⟩)]⟩
    ⟨true, defaultMValue, [(0, defaultMValue)]⟩
    (.flt ⟨3⟩) .FLOAT "5700" 1 none rfl rfl rfl rfl

/-- Claim C10: setExecuteCallback never consults the definition table's resource
    list: it succeeds iff the object exists, the object instance at the
    definition's declared object-instance id exists, that instance holds a
    resource of the requested name, and the external set_execute_function call
    succeeds — and its result is invariant under arbitrary replacement of the
    declared resource list. -/
theorem setExecuteCallback_ignores_table (d : DefObject) (obj : Option MObject)
    (rn : String) (extOk : Bool) :
    (setExecuteCallback d obj rn extOk = true ↔
      ∃ o oi, obj = some o ∧ findA o.instances d.instanceId = some oi ∧
        (findA oi.resources rn).isSome = true ∧ extOk = true)
  ∧ (∀ rs2 : List DefResource,
      setExecuteCallback { d with resources := rs2 } obj rn extOk =
        setExecuteCallback d obj rn extOk) := by
  constructor
  · cases obj with
    | none => simp [setExecuteCallback]
    | some o =>
      cases h1 : findA o.instances d.instanceId with
      | none => simp [setExecuteCallback, h1]
      | some oi =>
        cases h2 : findA oi.resources rn with
        | none => simp [setExecuteCallback, h1, h2]
        | some res => simp [setExecuteCallback, h1, h2]
  · intro rs2
    rfl
